import Mathlib

/-!
Verification of the sandbox policy-enforcement layer of AgentOS
(`ai_os_kernel`: Capability, SandboxConfig, SandboxManager, Syscall,
SyscallExecutor), as wired together by `src/kernel/src/main.rs`.

Only the bootstrap/demo wiring (`main.rs`) is present in the repository
snapshot; the policy layer itself is declared in the `ai_os_kernel`
library crate, which is absent. Every definition for that layer below is
therefore modelled from the specification's own words, as noted in its
doc comment. Paths are modelled as lists of path segments (an absolute
path `/tmp/test.txt` is `["tmp", "test.txt"]`), and the ambient
filesystem and process environment as an explicit state record.
-/

/-- Modelled from the spec: the closed enumeration of permission atoms
(file-read, file-write, process-spawn, network-access, system-info-read);
the `Capability` enum of the absent `ai_os_kernel` crate. -/
inductive Capability where
  | fileRead
  | fileWrite
  | processSpawn
  | networkAccess
  | systemInfoRead
deriving DecidableEq, Repr

/-- Modelled from the spec: the tagged request type, one variant per
supported operation with exactly its arguments; the `Syscall` enum of the
absent `ai_os_kernel` crate. -/
inductive Syscall where
  | fileExists (path : List String)
  | readFile (path : List String)
  | writeFile (path : List String) (data : String)
  | spawnProcess (command : String) (args : List String)
  | getSystemInfo
deriving DecidableEq, Repr

/-- Modelled from the spec: the system-info structure gathered by
`GetSystemInfo`. -/
structure SystemInfo where
  osName : String
  totalMemory : Nat
deriving DecidableEq, Repr

/-- Modelled from the spec: the error taxonomy of section 7 of the spec,
the error side of the executor's typed outcome in the absent
`ai_os_kernel` crate. -/
inductive SandboxError where
  | processNotSandboxed
  | capabilityDenied (cap : Capability)
  | pathDenied (path : List String)
  | ioError (msg : String)
  | spawnFailure (msg : String)
deriving DecidableEq, Repr

/-- Modelled from the spec: the success side of the executor's typed
outcome: existence boolean, byte content, write acknowledgment, child
identifier, system-info structure. -/
inductive SyscallOk where
  | existsResult (b : Bool)
  | fileData (content : String)
  | writeOk
  | spawned (child : Nat)
  | sysInfo (info : SystemInfo)
deriving DecidableEq, Repr

/-- Modelled from the spec: the ambient filesystem and process
environment the executor's effectful step runs against. Symlink
resolution is abstracted as the environment function `resolveLink`,
applied to a lexically normalized path; `files` gives the content of
present files; `spawnResult` gives the child pid of a successful launch
or `none` on spawn failure. -/
structure Fs where
  resolveLink : List String → List String
  files : List String → Option String
  sysInfo : SystemInfo
  spawnResult : String → List String → Option Nat

/-- One step of lexical path normalization: `.` is dropped and `..` pops
the last segment already accumulated. -/
def normStep (acc : List String) (seg : String) : List String :=
  if seg = "." then acc
  else if seg = ".." then acc.dropLast
  else acc ++ [seg]

/-- Lexical normalization of a segment list, resolving `.` and `..`. -/
def normalizeSegs (p : List String) : List String :=
  p.foldl normStep []

/-- Modelled from the spec: canonicalization of a path argument,
resolving `..` (lexically) and symlinks (through the environment's
`resolveLink`), used by the absent `ai_os_kernel` crate before every
allow-list comparison. -/
def canonicalize (fs : Fs) (p : List String) : List String :=
  fs.resolveLink (normalizeSegs p)

/-- Modelled from the spec: one process's policy — its pid, granted
capability set and allowed-path-prefix set; the `SandboxConfig` struct of
the absent `ai_os_kernel` crate. -/
structure SandboxConfig where
  pid : Nat
  capabilities : List Capability
  allowedPaths : List (List String)
deriving DecidableEq, Repr

/-- Modelled from the spec: the `standard` preset grants read-style and
system-info capabilities but denies process-spawn and network, with an
empty path allow-list. -/
def SandboxConfig.standard (pid : Nat) : SandboxConfig :=
  { pid := pid
    capabilities := [Capability.fileRead, Capability.systemInfoRead]
    allowedPaths := [] }

/-- Modelled from the spec: the `strict` preset, a baseline policy with
no capabilities and an empty allow-list. -/
def SandboxConfig.strict (pid : Nat) : SandboxConfig :=
  { pid := pid, capabilities := [], allowedPaths := [] }

/-- Modelled from the spec: the `privileged` preset, granting the whole
capability enumeration. -/
def SandboxConfig.privileged (pid : Nat) : SandboxConfig :=
  { pid := pid
    capabilities := [Capability.fileRead, Capability.fileWrite,
      Capability.processSpawn, Capability.networkAccess,
      Capability.systemInfoRead]
    allowedPaths := [] }

/-- Modelled from the spec: `grant` adds a capability, idempotently. -/
def SandboxConfig.grant (c : SandboxConfig) (cap : Capability) : SandboxConfig :=
  if cap ∈ c.capabilities then c
  else { c with capabilities := c.capabilities ++ [cap] }

/-- Modelled from the spec: `allow_path` canonicalizes and appends a path
prefix to the allow-list, idempotently. -/
def SandboxConfig.allowPath (c : SandboxConfig) (fs : Fs) (p : List String) : SandboxConfig :=
  let canon := canonicalize fs p
  if canon ∈ c.allowedPaths then c
  else { c with allowedPaths := c.allowedPaths ++ [canon] }

/-- Modelled from the spec: `has_capability`, a pure membership query on
the granted capability set. -/
def SandboxConfig.hasCapability (c : SandboxConfig) (cap : Capability) : Bool :=
  c.capabilities.contains cap

/-- Modelled from the spec: `is_path_allowed` canonicalizes its argument
and permits it iff it equals or is a descendant of (segment-wise extends)
some stored allow-list entry. -/
def SandboxConfig.isPathAllowed (c : SandboxConfig) (fs : Fs) (p : List String) : Bool :=
  c.allowedPaths.any (fun a => a.isPrefixOf (canonicalize fs p))

/-- Modelled from the spec: `SandboxManager` is a shared handle to one
registry instance; the handle carries the identity of the registry it
refers to, the registry contents themselves live in the kernel state. -/
structure SandboxManager where
  rid : Nat
deriving DecidableEq, Repr

/-- Modelled from the spec: cloning a `SandboxManager` hands out another
handle to the same underlying registry, not an independent copy. -/
def SandboxManager.clone (m : SandboxManager) : SandboxManager :=
  { rid := m.rid }

/-- Modelled from the spec: the enforcement point holds the shared
registry handle it was constructed with; `SyscallExecutor::new`. -/
structure SyscallExecutor where
  manager : SandboxManager
deriving DecidableEq, Repr

/-- Modelled from the spec: `SyscallExecutor::new(manager)`. -/
def SyscallExecutor.new (m : SandboxManager) : SyscallExecutor :=
  { manager := m }

/-- Modelled from the spec: the whole mutable world an `execute` call can
read or affect — the filesystem environment, the launched child
processes, the registry store (registry id → list of registered
configs), and the next fresh registry id. -/
structure KernelState where
  fs : Fs
  children : List Nat
  store : Nat → List SandboxConfig
  nextRid : Nat

/-- Modelled from the spec: `SandboxManager::new()` allocates a fresh,
empty registry and returns a handle to it. -/
def SandboxManager.new (st : KernelState) : SandboxManager × KernelState :=
  (⟨st.nextRid⟩,
   { st with
     store := fun r => if r = st.nextRid then [] else st.store r
     nextRid := st.nextRid + 1 })

/-- Insert a config into a registry table keyed by its bound pid,
replacing any previous entry for that pid. -/
def upsertConfig (table : List SandboxConfig) (cfg : SandboxConfig) : List SandboxConfig :=
  table.filter (fun c => c.pid ≠ cfg.pid) ++ [cfg]

/-- Modelled from the spec: `create_sandbox(config)` registers a config
keyed by its bound pid in the registry the handle refers to. -/
def SandboxManager.createSandbox (m : SandboxManager) (cfg : SandboxConfig)
    (st : KernelState) : KernelState :=
  { st with
    store := fun r =>
      if r = m.rid then upsertConfig (st.store m.rid) cfg else st.store r }

/-- Modelled from the spec: `get_sandbox(pid)`, the read-only policy
lookup used internally by the executor. -/
def SandboxManager.getSandbox (m : SandboxManager) (st : KernelState)
    (pid : Nat) : Option SandboxConfig :=
  (st.store m.rid).find? (fun c => c.pid = pid)

/-- Modelled from the spec: `remove_sandbox(pid)` deletes the entry for a
terminating process. -/
def SandboxManager.removeSandbox (m : SandboxManager) (pid : Nat)
    (st : KernelState) : KernelState :=
  { st with
    store := fun r =>
      if r = m.rid then (st.store m.rid).filter (fun c => c.pid ≠ pid)
      else st.store r }

/-- Modelled from the spec: the capability each syscall variant requires
(file operations need file-read/file-write, spawn needs process-spawn,
system info needs system-info-read). -/
def requiredCapability : Syscall → Capability
  | Syscall.fileExists _ => Capability.fileRead
  | Syscall.readFile _ => Capability.fileRead
  | Syscall.writeFile _ _ => Capability.fileWrite
  | Syscall.spawnProcess _ _ => Capability.processSpawn
  | Syscall.getSystemInfo => Capability.systemInfoRead

/-- The path argument a syscall carries, if any. -/
def syscallPath : Syscall → Option (List String)
  | Syscall.fileExists p => some p
  | Syscall.readFile p => some p
  | Syscall.writeFile p _ => some p
  | Syscall.spawnProcess _ _ => none
  | Syscall.getSystemInfo => none

/-- Modelled from the spec: step 5 of the admission algorithm, the real
effect of an admitted syscall against the kernel state. Filesystem
operations return their natural result; failures of the underlying
effect surface as `ioError` or `spawnFailure`. -/
def performEffect (st : KernelState) :
    Syscall → Except SandboxError SyscallOk × KernelState
  | Syscall.fileExists p =>
      (Except.ok (SyscallOk.existsResult
        (st.fs.files (canonicalize st.fs p)).isSome), st)
  | Syscall.readFile p =>
      match st.fs.files (canonicalize st.fs p) with
      | some content => (Except.ok (SyscallOk.fileData content), st)
      | none => (Except.error (SandboxError.ioError "file not found"), st)
  | Syscall.writeFile p data =>
      let cp := canonicalize st.fs p
      (Except.ok SyscallOk.writeOk,
       { st with fs :=
         { st.fs with files := fun q => if q = cp then some data else st.fs.files q } })
  | Syscall.spawnProcess cmd args =>
      match st.fs.spawnResult cmd args with
      | some child =>
          (Except.ok (SyscallOk.spawned child),
           { st with children := st.children ++ [child] })
      | none => (Except.error (SandboxError.spawnFailure cmd), st)
  | Syscall.getSystemInfo => (Except.ok (SyscallOk.sysInfo st.fs.sysInfo), st)

/-- Modelled from the spec: `SyscallExecutor::execute(pid, syscall)`,
the fixed-order admission algorithm — resolve the policy (missing is
`ProcessNotSandboxed`), check the required capability (absent is
`CapabilityDenied`), canonicalize and check any path argument (escaping
the allow-list is `PathDenied`), then perform the effect. -/
def SyscallExecutor.execute (ex : SyscallExecutor) (st : KernelState)
    (pid : Nat) (s : Syscall) : Except SandboxError SyscallOk × KernelState :=
  match ex.manager.getSandbox st pid with
  | none => (Except.error SandboxError.processNotSandboxed, st)
  | some cfg =>
      if cfg.hasCapability (requiredCapability s) then
        match syscallPath s with
        | some p =>
            if cfg.isPathAllowed st.fs p then performEffect st s
            else (Except.error (SandboxError.pathDenied p), st)
        | none => performEffect st s
      else (Except.error (SandboxError.capabilityDenied (requiredCapability s)), st)

/-- The three policy-denial kinds of the taxonomy, as opposed to the two
effect-failure kinds. -/
def SandboxError.isPolicyDenial : SandboxError → Bool
  | SandboxError.processNotSandboxed => true
  | SandboxError.capabilityDenied _ => true
  | SandboxError.pathDenied _ => true
  | SandboxError.ioError _ => false
  | SandboxError.spawnFailure _ => false

/-- A concrete filesystem environment used by witnesses: no symlinks,
a single file `/tmp/test.txt`, and spawns that always succeed. -/
def demoFs : Fs :=
  { resolveLink := id
    files := fun p => if p = ["tmp", "test.txt"] then some "hello" else none
    sysInfo := { osName := "ai-os", totalMemory := 1024 }
    spawnResult := fun _ _ => some 99 }

/-- A concrete kernel state used by witnesses: one registry (id 0)
holding the demo sandbox of Scenario A — `standard(5)` widened with
`allow_path("/tmp")`. -/
def demoState : KernelState :=
  { fs := demoFs
    children := []
    store := fun r =>
      if r = 0 then [(SandboxConfig.standard 5).allowPath demoFs ["tmp"]] else []
    nextRid := 1 }

/-- The executor of the demo wiring, holding a clone of the handle to
registry 0. -/
def demoExecutor : SyscallExecutor :=
  SyscallExecutor.new (SandboxManager.clone { rid := 0 })

/-- C1: for every pid with no registered SandboxConfig, `execute` returns
`ProcessNotSandboxed` for every Syscall variant, leaving the state
untouched — absence of a policy is a denial, never an implicit allow. -/
theorem execute_no_sandbox_denied (ex : SyscallExecutor) (st : KernelState)
    (pid : Nat) (s : Syscall)
    (h : ex.manager.getSandbox st pid = none) :
    ex.execute st pid s = (Except.error SandboxError.processNotSandboxed, st) := by
  simp [SyscallExecutor.execute, h]

/-- Witness for C1: pid 7 has no sandbox in the demo state, and a
ReadFile syscall for it is answered `ProcessNotSandboxed`. -/
theorem execute_no_sandbox_denied_witness :
    demoExecutor.execute demoState 7 (Syscall.readFile ["tmp", "a"])
      = (Except.error SandboxError.processNotSandboxed, demoState) :=
  execute_no_sandbox_denied demoExecutor demoState 7 (Syscall.readFile ["tmp", "a"])
    (by decide)

/-- C2: for a registered pid lacking the required capability, `execute`
returns `CapabilityDenied` with that capability, with no condition on the
path argument, the allow-list, or the filesystem — so the outcome holds
even for a path the allow-list would admit, and never depends on path
validity or filesystem existence. -/
theorem execute_capability_denied (ex : SyscallExecutor) (st : KernelState)
    (pid : Nat) (s : Syscall) (cfg : SandboxConfig)
    (hfind : ex.manager.getSandbox st pid = some cfg)
    (hcap : cfg.hasCapability (requiredCapability s) = false) :
    ex.execute st pid s
      = (Except.error (SandboxError.capabilityDenied (requiredCapability s)), st) := by
  simp [SyscallExecutor.execute, hfind, hcap]

/-- Witness for C2: in the demo state, pid 5 lacks file-write, and a
write to `/tmp/x` is denied with `CapabilityDenied` even though `/tmp/x`
is inside the allowed prefix `/tmp` — the path never gets checked. -/
theorem execute_capability_denied_witness :
    demoExecutor.execute demoState 5 (Syscall.writeFile ["tmp", "x"] "d")
      = (Except.error (SandboxError.capabilityDenied Capability.fileWrite),
         demoState)
    ∧ ((SandboxConfig.standard 5).allowPath demoFs ["tmp"]).isPathAllowed
        demoFs ["tmp", "x"] = true :=
  ⟨execute_capability_denied demoExecutor demoState 5
     (Syscall.writeFile ["tmp", "x"] "d")
     ((SandboxConfig.standard 5).allowPath demoFs ["tmp"])
     (by decide) (by decide),
   by decide⟩

/-- C3: for a registered pid holding the required capability and a
path-carrying syscall, admission is decided on the canonical form of the
path argument: the effect is performed iff some allow-list entry is a
segment-wise prefix of (equals or is an ancestor of) the canonical form,
and otherwise the result is `PathDenied` — regardless of the literal
input spelling. -/
theorem execute_path_check_canonical (ex : SyscallExecutor) (st : KernelState)
    (pid : Nat) (s : Syscall) (p : List String) (cfg : SandboxConfig)
    (hfind : ex.manager.getSandbox st pid = some cfg)
    (hpath : syscallPath s = some p)
    (hcap : cfg.hasCapability (requiredCapability s) = true) :
    ((∃ a ∈ cfg.allowedPaths, a.isPrefixOf (canonicalize st.fs p)) →
        ex.execute st pid s = performEffect st s)
    ∧ ((¬ ∃ a ∈ cfg.allowedPaths, a.isPrefixOf (canonicalize st.fs p)) →
        ex.execute st pid s = (Except.error (SandboxError.pathDenied p), st)) := by
  constructor
  · intro hall
    have hb : cfg.isPathAllowed st.fs p = true := by
      simpa [SandboxConfig.isPathAllowed, List.any_eq_true] using hall
    simp [SyscallExecutor.execute, hfind, hcap, hpath, hb]
  · intro hall
    have hb : cfg.isPathAllowed st.fs p = false := by
      rw [SandboxConfig.isPathAllowed, List.any_eq_false]
      intro a ha hpre
      exact hall ⟨a, ha, hpre⟩
    simp [SyscallExecutor.execute, hfind, hcap, hpath, hb]

/-- Witness for C3: in the demo state with only `/tmp` allowed, the
traversal spelling `/tmp/../etc/passwd` canonicalizes to `/etc/passwd`
and yields `PathDenied`. -/
theorem execute_path_check_canonical_witness :
    demoExecutor.execute demoState 5
        (Syscall.readFile ["tmp", "..", "etc", "passwd"])
      = (Except.error (SandboxError.pathDenied ["tmp", "..", "etc", "passwd"]),
         demoState) :=
  (execute_path_check_canonical demoExecutor demoState 5
      (Syscall.readFile ["tmp", "..", "etc", "passwd"])
      ["tmp", "..", "etc", "passwd"]
      ((SandboxConfig.standard 5).allowPath demoFs ["tmp"])
      (by decide) (by decide) (by decide)).2 (by decide)

/-- C4: under a config built by `standard(pid)` with no further grants,
`GetSystemInfo` always succeeds with the gathered system-info value, and
`SpawnProcess` fails with `CapabilityDenied process-spawn` for every
command and argument list. -/
theorem standard_sysinfo_ok_spawn_denied (ex : SyscallExecutor)
    (st : KernelState) (pid : Nat) (cmd : String) (args : List String)
    (hfind : ex.manager.getSandbox st pid = some (SandboxConfig.standard pid)) :
    ex.execute st pid Syscall.getSystemInfo
        = (Except.ok (SyscallOk.sysInfo st.fs.sysInfo), st)
    ∧ ex.execute st pid (Syscall.spawnProcess cmd args)
        = (Except.error (SandboxError.capabilityDenied Capability.processSpawn),
           st) := by
  constructor
  · simp [SyscallExecutor.execute, hfind, requiredCapability, syscallPath,
      SandboxConfig.hasCapability, SandboxConfig.standard, performEffect]
  · simp [SyscallExecutor.execute, hfind, requiredCapability,
      SandboxConfig.hasCapability, SandboxConfig.standard]

/-- A second concrete state for witnesses: registry 0 holds a plain
`standard(3)` sandbox with no further grants and no allowed paths. -/
def plainState : KernelState :=
  { fs := demoFs
    children := []
    store := fun r => if r = 0 then [SandboxConfig.standard 3] else []
    nextRid := 1 }

/-- Witness for C4: with a plain `standard(3)` sandbox registered,
system info succeeds and a spawn of `echo hello` is capability-denied. -/
theorem standard_sysinfo_ok_spawn_denied_witness :
    demoExecutor.execute plainState 3 Syscall.getSystemInfo
        = (Except.ok (SyscallOk.sysInfo plainState.fs.sysInfo), plainState)
    ∧ demoExecutor.execute plainState 3 (Syscall.spawnProcess "echo" ["hello"])
        = (Except.error (SandboxError.capabilityDenied Capability.processSpawn),
           plainState) :=
  standard_sysinfo_ok_spawn_denied demoExecutor plainState 3 "echo" ["hello"]
    (by decide)

/-- The filesystem environment of Scenario A, over an arbitrary file
table, system-info value and spawn behavior, with no symlinks. -/
def scenarioFs (files : List String → Option String) (info : SystemInfo)
    (spawnRes : String → List String → Option Nat) : Fs :=
  { resolveLink := id
    files := files
    sysInfo := info
    spawnResult := spawnRes }

/-- The kernel state of Scenario A: registry 0 holds `standard(5)`
widened with `allow_path("/tmp")`. -/
def scenarioState (files : List String → Option String) (info : SystemInfo)
    (spawnRes : String → List String → Option Nat)
    (children : List Nat) : KernelState :=
  { fs := scenarioFs files info spawnRes
    children := children
    store := fun r =>
      if r = 0 then
        [(SandboxConfig.standard 5).allowPath (scenarioFs files info spawnRes) ["tmp"]]
      else []
    nextRid := 1 }

/-- C5: Scenario A, for every file table, system-info value, spawn
behavior and child list — under `standard(5)` plus `allow_path("/tmp")`:
`FileExists{/tmp/test.txt}` is admitted and returns the environment's
real existence boolean; `ReadFile{/etc/passwd}` is `PathDenied`;
`SpawnProcess{echo, [hello]}` is `CapabilityDenied`; `GetSystemInfo`
succeeds with the populated system-info value. -/
theorem scenario_a (files : List String → Option String) (info : SystemInfo)
    (spawnRes : String → List String → Option Nat) (children : List Nat) :
    (demoExecutor.execute (scenarioState files info spawnRes children) 5
        (Syscall.fileExists ["tmp", "test.txt"])).1
      = Except.ok (SyscallOk.existsResult (files ["tmp", "test.txt"]).isSome)
    ∧ (demoExecutor.execute (scenarioState files info spawnRes children) 5
        (Syscall.readFile ["etc", "passwd"])).1
      = Except.error (SandboxError.pathDenied ["etc", "passwd"])
    ∧ (demoExecutor.execute (scenarioState files info spawnRes children) 5
        (Syscall.spawnProcess "echo" ["hello"])).1
      = Except.error (SandboxError.capabilityDenied Capability.processSpawn)
    ∧ (demoExecutor.execute (scenarioState files info spawnRes children) 5
        Syscall.getSystemInfo).1
      = Except.ok (SyscallOk.sysInfo info) := by
  refine ⟨rfl, rfl, rfl, rfl⟩

/-- Helper: adding an already-present canonical path leaves the config
literally unchanged, so a second identical `allow_path` is the identity. -/
lemma allowPath_allowPath (c : SandboxConfig) (fs : Fs) (p : List String) :
    (c.allowPath fs p).allowPath fs p = c.allowPath fs p := by
  unfold SandboxConfig.allowPath
  by_cases h : canonicalize fs p ∈ c.allowedPaths
  · simp [h]
  · simp [h]

/-- Helper: `allow_path` never removes an allow-list entry. -/
lemma allowPath_mono (c : SandboxConfig) (fs : Fs) (p q : List String)
    (h : c.isPathAllowed fs q = true) :
    (c.allowPath fs p).isPathAllowed fs q = true := by
  rw [SandboxConfig.isPathAllowed, List.any_eq_true] at h ⊢
  obtain ⟨a, ha, hpre⟩ := h
  refine ⟨a, ?_, hpre⟩
  unfold SandboxConfig.allowPath
  by_cases hc : canonicalize fs p ∈ c.allowedPaths
  · simpa [hc] using ha
  · simp [hc]
    exact Or.inl ha

/-- Helper: `grant` does not touch the allow-list. -/
lemma grant_allowedPaths (c : SandboxConfig) (cap : Capability) :
    (c.grant cap).allowedPaths = c.allowedPaths := by
  unfold SandboxConfig.grant
  by_cases h : cap ∈ c.capabilities <;> simp [h]

/-- C6: `allow_path` is idempotent — applying it twice with the same path
gives a config on which `is_path_allowed` agrees with the once-applied
config on every query — and monotonic: a query path once allowed stays
allowed across every further `allow_path` and every further `grant`. -/
theorem allowPath_idempotent_monotonic (c : SandboxConfig) (fs : Fs)
    (p p' q : List String) (cap : Capability)
    (h : c.isPathAllowed fs q = true) :
    (∀ r, ((c.allowPath fs p).allowPath fs p).isPathAllowed fs r
        = (c.allowPath fs p).isPathAllowed fs r)
    ∧ (c.allowPath fs p').isPathAllowed fs q = true
    ∧ (c.grant cap).isPathAllowed fs q = true := by
  refine ⟨fun r => by rw [allowPath_allowPath], allowPath_mono c fs p' q h, ?_⟩
  rw [SandboxConfig.isPathAllowed, grant_allowedPaths]
  exact h

/-- Witness for C6: in the demo config (`standard(5)` plus `/tmp`),
`/tmp/x` is allowed, and stays allowed after re-adding `/tmp`, adding
`/var`, and granting file-write. -/
theorem allowPath_idempotent_monotonic_witness :
    ((SandboxConfig.standard 5).allowPath demoFs ["tmp"]).isPathAllowed demoFs
        ["tmp", "x"] = true
    ∧ ((∀ r, ((((SandboxConfig.standard 5).allowPath demoFs ["tmp"]).allowPath
            demoFs ["tmp"]).allowPath demoFs ["tmp"]).isPathAllowed demoFs r
          = (((SandboxConfig.standard 5).allowPath demoFs ["tmp"]).allowPath
              demoFs ["tmp"]).isPathAllowed demoFs r)
        ∧ (((SandboxConfig.standard 5).allowPath demoFs ["tmp"]).allowPath
            demoFs ["var"]).isPathAllowed demoFs ["tmp", "x"] = true
        ∧ (((SandboxConfig.standard 5).allowPath demoFs ["tmp"]).grant
            Capability.fileWrite).isPathAllowed demoFs ["tmp", "x"] = true) :=
  ⟨by decide,
   allowPath_idempotent_monotonic ((SandboxConfig.standard 5).allowPath demoFs ["tmp"])
     demoFs ["tmp"] ["var"] ["tmp", "x"] Capability.fileWrite (by decide)⟩

/-- Helper: the effectful step never produces a policy-denial error kind,
and whenever it errors, the kernel state is returned unchanged. -/
lemma performEffect_error_not_policy (st : KernelState) (s : Syscall)
    (e : SandboxError) (he : (performEffect st s).1 = Except.error e) :
    e.isPolicyDenial = false ∧ (performEffect st s).2 = st := by
  cases s with
  | fileExists p => simp [performEffect] at he
  | readFile p =>
      rw [performEffect] at he ⊢
      cases hf : st.fs.files (canonicalize st.fs p) with
      | some content => rw [hf] at he; simp at he
      | none =>
          rw [hf] at he
          simp at he
          exact ⟨by rw [← he]; rfl, rfl⟩
  | writeFile p data => simp [performEffect] at he
  | spawnProcess cmd args =>
      rw [performEffect] at he ⊢
      cases hf : st.fs.spawnResult cmd args with
      | some child => rw [hf] at he; simp at he
      | none =>
          rw [hf] at he
          simp at he
          exact ⟨by rw [← he]; rfl, rfl⟩
  | getSystemInfo => simp [performEffect] at he

/-- Helper: every `execute` call either leaves the state unchanged (all
denial branches) or coincides with the effectful step on the admitted
syscall. -/
lemma execute_state_or_effect (ex : SyscallExecutor) (st : KernelState)
    (pid : Nat) (s : Syscall) :
    (ex.execute st pid s).2 = st ∨ ex.execute st pid s = performEffect st s := by
  unfold SyscallExecutor.execute
  split
  · exact Or.inl rfl
  · split
    · split
      · split
        · exact Or.inr rfl
        · exact Or.inl rfl
      · exact Or.inr rfl
    · exact Or.inl rfl

/-- C7: whenever `execute` returns one of the policy denials
(`ProcessNotSandboxed`, `CapabilityDenied`, `PathDenied`), the kernel
state after the call — filesystem contents, child processes and registry
store — is exactly the state before it. Determinism of the denial is
definitional: the model is a pure function of the state. -/
theorem execute_denial_side_effect_free (ex : SyscallExecutor)
    (st : KernelState) (pid : Nat) (s : Syscall) (e : SandboxError)
    (he : (ex.execute st pid s).1 = Except.error e)
    (hd : e.isPolicyDenial = true) :
    (ex.execute st pid s).2 = st := by
  rcases execute_state_or_effect ex st pid s with h | h
  · exact h
  · rw [h] at he
    have hnp := (performEffect_error_not_policy st s e he).1
    rw [hnp] at hd
    cases hd

/-- Witness for C7: the path-denied read of `/etc/passwd` in the demo
state leaves the state unchanged. -/
theorem execute_denial_side_effect_free_witness :
    (demoExecutor.execute demoState 5 (Syscall.readFile ["etc", "passwd"])).2
      = demoState :=
  execute_denial_side_effect_free demoExecutor demoState 5
    (Syscall.readFile ["etc", "passwd"])
    (SandboxError.pathDenied ["etc", "passwd"]) (by rfl) (by decide)

/-- The admission predicate of the fixed-order algorithm: a registered
pid, the required capability present, and (for path-carrying syscalls)
the canonicalized path inside the allow-list. -/
def admitted (ex : SyscallExecutor) (st : KernelState) (pid : Nat)
    (s : Syscall) : Bool :=
  match ex.manager.getSandbox st pid with
  | none => false
  | some cfg =>
      cfg.hasCapability (requiredCapability s) &&
      (match syscallPath s with
       | some p => cfg.isPathAllowed st.fs p
       | none => true)

/-- C8: errors of an admitted syscall are never policy denials (they can
only be `IoError` or `SpawnFailure`), and conversely a syscall that fails
admission errors with one of the three policy-denial kinds, never with an
effect-error kind. -/
theorem execute_error_taxonomy_separation (ex : SyscallExecutor)
    (st : KernelState) (pid : Nat) (s : Syscall) :
    (admitted ex st pid s = true →
       ∀ e, (ex.execute st pid s).1 = Except.error e → e.isPolicyDenial = false)
    ∧ (admitted ex st pid s = false →
       ∃ e, (ex.execute st pid s).1 = Except.error e ∧ e.isPolicyDenial = true) := by
  cases hfind : ex.manager.getSandbox st pid with
  | none =>
      refine ⟨fun h => ?_, fun _ => ?_⟩
      · simp [admitted, hfind] at h
      · exact ⟨SandboxError.processNotSandboxed,
          by simp [SyscallExecutor.execute, hfind], rfl⟩
  | some cfg =>
      cases hcap : cfg.hasCapability (requiredCapability s) with
      | false =>
          refine ⟨fun h => ?_, fun _ => ?_⟩
          · simp [admitted, hfind, hcap] at h
          · exact ⟨SandboxError.capabilityDenied (requiredCapability s),
              by simp [SyscallExecutor.execute, hfind, hcap], rfl⟩
      | true =>
          cases hpath : syscallPath s with
          | none =>
              refine ⟨fun _ e he => ?_, fun h => ?_⟩
              · have hexec : ex.execute st pid s = performEffect st s := by
                  simp [SyscallExecutor.execute, hfind, hcap, hpath]
                rw [hexec] at he
                exact (performEffect_error_not_policy st s e he).1
              · simp [admitted, hfind, hcap, hpath] at h
          | some p =>
              cases hall : cfg.isPathAllowed st.fs p with
              | false =>
                  refine ⟨fun h => ?_, fun _ => ?_⟩
                  · simp [admitted, hfind, hcap, hpath, hall] at h
                  · exact ⟨SandboxError.pathDenied p,
                      by simp [SyscallExecutor.execute, hfind, hcap, hpath, hall],
                      rfl⟩
              | true =>
                  refine ⟨fun _ e he => ?_, fun h => ?_⟩
                  · have hexec : ex.execute st pid s = performEffect st s := by
                      simp [SyscallExecutor.execute, hfind, hcap, hpath, hall]
                    rw [hexec] at he
                    exact (performEffect_error_not_policy st s e he).1
                  · simp [admitted, hfind, hcap, hpath, hall] at h

/-- Witness for C8: reading the absent but allowed `/tmp/gone` in the
demo state errors with the non-policy kind `IoError`; and the
unregistered pid 7 fails with a policy-denial kind. -/
theorem execute_error_taxonomy_separation_witness :
    (SandboxError.ioError "file not found").isPolicyDenial = false
    ∧ (∃ e, (demoExecutor.execute demoState 7 Syscall.getSystemInfo).1
          = Except.error e ∧ e.isPolicyDenial = true) :=
  ⟨(execute_error_taxonomy_separation demoExecutor demoState 5
      (Syscall.readFile ["tmp", "gone"])).1 (by rfl)
      (SandboxError.ioError "file not found") (by rfl),
   (execute_error_taxonomy_separation demoExecutor demoState 7
      Syscall.getSystemInfo).2 (by rfl)⟩

/-- C9: `execute` is total at its interface — for every pid and Syscall
it returns an ordinary inspectable value, either a success or an error
drawn exhaustively from the five-kind taxonomy, and never aborts (the
model is a total function). -/
theorem execute_total_taxonomy (ex : SyscallExecutor) (st : KernelState)
    (pid : Nat) (s : Syscall) :
    (∃ v, (ex.execute st pid s).1 = Except.ok v)
    ∨ (∃ e, (ex.execute st pid s).1 = Except.error e ∧
        (e = SandboxError.processNotSandboxed
         ∨ (∃ c, e = SandboxError.capabilityDenied c)
         ∨ (∃ p, e = SandboxError.pathDenied p)
         ∨ (∃ m, e = SandboxError.ioError m)
         ∨ (∃ m, e = SandboxError.spawnFailure m))) := by
  cases hr : (ex.execute st pid s).1 with
  | ok v => exact Or.inl ⟨v, rfl⟩
  | error e =>
      refine Or.inr ⟨e, rfl, ?_⟩
      cases e with
      | processNotSandboxed => exact Or.inl rfl
      | capabilityDenied c => exact Or.inr (Or.inl ⟨c, rfl⟩)
      | pathDenied p => exact Or.inr (Or.inr (Or.inl ⟨p, rfl⟩))
      | ioError m => exact Or.inr (Or.inr (Or.inr (Or.inl ⟨m, rfl⟩)))
      | spawnFailure m => exact Or.inr (Or.inr (Or.inr (Or.inr ⟨m, rfl⟩)))

/-- Helper: once a config is registered for a pid, `execute` for that pid
never answers `ProcessNotSandboxed`. -/
lemma execute_ne_notSandboxed_of_find (ex : SyscallExecutor)
    (st : KernelState) (pid : Nat) (cfg : SandboxConfig) (s : Syscall)
    (hfind : ex.manager.getSandbox st pid = some cfg) :
    (ex.execute st pid s).1 ≠ Except.error SandboxError.processNotSandboxed := by
  cases hcap : cfg.hasCapability (requiredCapability s) with
  | false => simp [SyscallExecutor.execute, hfind, hcap]
  | true =>
      cases hpath : syscallPath s with
      | none =>
          have hexec : ex.execute st pid s = performEffect st s := by
            simp [SyscallExecutor.execute, hfind, hcap, hpath]
          rw [hexec]
          intro he
          have hpol := (performEffect_error_not_policy st s
            SandboxError.processNotSandboxed he).1
          simp [SandboxError.isPolicyDenial] at hpol
      | some p =>
          cases hall : cfg.isPathAllowed st.fs p with
          | false => simp [SyscallExecutor.execute, hfind, hcap, hpath, hall]
          | true =>
              have hexec : ex.execute st pid s = performEffect st s := by
                simp [SyscallExecutor.execute, hfind, hcap, hpath, hall]
              rw [hexec]
              intro he
              have hpol := (performEffect_error_not_policy st s
                SandboxError.processNotSandboxed he).1
              simp [SandboxError.isPolicyDenial] at hpol

/-- C10: a clone of a `SandboxManager` is a handle to the same registry:
an executor constructed from a clone taken before registration sees a
config registered afterwards through the original handle — the lookup
returns exactly that config, and no syscall for its pid is answered
`ProcessNotSandboxed`. -/
theorem clone_shares_registry (st0 : KernelState) (cfg : SandboxConfig)
    (s : Syscall) :
    (SyscallExecutor.new (SandboxManager.new st0).1.clone).manager.getSandbox
        ((SandboxManager.new st0).1.createSandbox cfg (SandboxManager.new st0).2)
        cfg.pid = some cfg
    ∧ ((SyscallExecutor.new (SandboxManager.new st0).1.clone).execute
        ((SandboxManager.new st0).1.createSandbox cfg (SandboxManager.new st0).2)
        cfg.pid s).1 ≠ Except.error SandboxError.processNotSandboxed := by
  have hfind : (SyscallExecutor.new (SandboxManager.new st0).1.clone).manager.getSandbox
      ((SandboxManager.new st0).1.createSandbox cfg (SandboxManager.new st0).2)
      cfg.pid = some cfg := by
    simp [SandboxManager.new, SandboxManager.clone, SyscallExecutor.new,
      SandboxManager.createSandbox, SandboxManager.getSandbox, upsertConfig,
      List.find?]
  exact ⟨hfind, execute_ne_notSandboxed_of_find _ _ _ cfg s hfind⟩
